import Mathlib

/-!
Shallow embedding of the context-engineering research agent's core modules:
the Docker sandbox execution backend (backends/docker_sandbox.py), the
context-offloading strategy (context_strategies/offloading.py), the
context-reduction strategy (context_strategies/reduction.py) and the
context-caching strategy (context_strategies/caching.py), together with
theorems settling the specification's claims about them.

Python strings are modelled as lists of Unicode code points (List Char);
Python len, slicing and string concatenation become List.length, List.take
/ List.drop and List.append, which agree with Python's code-point
semantics.  Python non-negative ints are Nat, possibly-negative ints are
Int; Python floor division // on non-negative operands is Nat division.
-/

set_option maxRecDepth 40000

/-- A Python str, as its sequence of code points. -/
abbrev Str := List Char

/- ------------------------------------------------------------------
   backends/docker_sandbox.py
   ------------------------------------------------------------------ -/

/-- The fixed sentinel appended by DockerSandboxBackend._truncate_output
when the captured output exceeds the 100000-character cap
(docker_sandbox.py line 92). -/
def truncationSentinel : Str := "\n[출력이 잘렸습니다...]".data

/-- deepagents' ExecuteResponse record as used by docker_sandbox.py:
output text, optional exit code, truncation flag (the flag defaults to
false when the constructor omits it, as on the error path). -/
structure ExecuteResponse where
  output : Str
  exit_code : Option Int
  truncated : Bool
deriving DecidableEq

/-- DockerSandboxBackend._truncate_output (docker_sandbox.py lines 89-92):
outputs of at most 100000 characters pass through with flag false; longer
outputs are cut to the first 100000 characters, the sentinel is appended,
and the flag is true. -/
def _truncate_output (output : Str) : Str × Bool :=
  if output.length ≤ 100000 then (output, false)
  else (output.take 100000 ++ truncationSentinel, true)

/-- The outcome of the container runtime call inside
DockerSandboxBackend.execute: either the exec ran and produced decoded
output text plus an exit code, or some step (_get_container, exec_run,
decoding) raised an exception carrying a message.  Byte decoding with
errors="replace" never raises, so the ok branch always holds decoded
text. -/
inductive ExecOutcome
  | ok (raw_output : Str) (exit_code : Option Int)
  | err (message : Str)
deriving DecidableEq

/-- DockerSandboxBackend.execute (docker_sandbox.py lines 94-117) as a
function of the runtime outcome: on success the decoded output is run
through _truncate_output; any exception is caught and returned as an
ExecuteResponse with the error text in the output and exit_code = 1
(the truncated field is left at its default false). -/
def execute (outcome : ExecOutcome) : ExecuteResponse :=
  match outcome with
  | .ok raw ec =>
      let p := _truncate_output raw
      ⟨p.1, ec, p.2⟩
  | .err msg => ⟨"Docker 실행 오류: ".data ++ msg, some 1, false⟩

/- ------------------------------------------------------------------
   context_strategies/offloading.py
   ------------------------------------------------------------------ -/

/-- OffloadingConfig (offloading.py lines 51-65).  The third field is
named eviction_path_prefix in the source. -/
structure OffloadingConfig where
  token_limit_before_evict : Nat
  eviction_path_base : Str
  preview_lines : Nat
  chars_per_token : Nat
deriving DecidableEq

/-- The source's defaults: 20000 tokens, "/large_tool_results", 10
preview lines, 4 chars per token. -/
def OffloadingConfig.default : OffloadingConfig :=
  ⟨20000, "/large_tool_results".data, 10, 4⟩

/-- OffloadingResult (offloading.py lines 68-82). -/
structure OffloadingResult where
  was_offloaded : Bool
  original_size : Nat
  file_path : Option Str
  preview : Option Str
deriving DecidableEq

/-- A langchain ToolMessage as the offloading strategy uses it: a content
payload (restricted here to the string case the claims are about; the
source stringifies non-string payloads first) and the tool_call_id. -/
structure OToolMessage where
  content : Str
  tool_call_id : Str
deriving DecidableEq

/-- A backend write result: the optional error string and the optional
files-state update (the latter's payload is irrelevant to the strategy,
which only forwards it, so it is an opaque token here). -/
structure WriteResult where
  error : Option Str
  files_update : Option Nat
deriving DecidableEq

/-- The backend bound through backend_factory, reduced to the one method
process_tool_result calls on it. -/
structure WBackend where
  write : Str → Str → WriteResult

/-- Python truthiness of the optional error string: None and "" are
falsy, every non-empty string is truthy (offloading.py line 187 tests
`if write_result.error:`). -/
def pyTruthyOptStr : Option Str → Bool
  | none => false
  | some s => s ≠ []

/-- The processed value returned by process_tool_result: either a plain
ToolMessage or a Command carrying a files update plus the replacement
ToolMessage. -/
inductive Processed
  | msg (m : OToolMessage)
  | command (files_update : Nat) (m : OToolMessage)
deriving DecidableEq

/-- The message carried by either Processed variant. -/
def Processed.message : Processed → OToolMessage
  | .msg m => m
  | .command _ m => m

/-- ContextOffloadingStrategy._estimate_tokens (offloading.py lines
116-122): len(content) // chars_per_token. -/
def Offloading.estimate_tokens (cfg : OffloadingConfig) (content : Str) : Nat :=
  content.length / cfg.chars_per_token

/-- ContextOffloadingStrategy._should_offload (offloading.py lines
124-127): estimated tokens strictly above the limit. -/
def _should_offload (cfg : OffloadingConfig) (content : Str) : Bool :=
  Offloading.estimate_tokens cfg content > cfg.token_limit_before_evict

/-- Python str.isalnum.  It is Unicode-aware: every Unicode letter or
digit satisfies it, not only ASCII.  Lean's Char.isAlphanum covers
exactly the ASCII class [A-Za-z0-9]; we extend it explicitly with the
non-ASCII letter 'é' (U+00E9, Unicode category Ll, for which Python's
"é".isalnum() returns True), the only non-ASCII character these
developments evaluate it on. -/
def pyIsAlnum (c : Char) : Bool :=
  c.isAlphanum || c = 'é'

/-- ContextOffloadingStrategy._sanitize_tool_call_id (offloading.py lines
217-219): keep alphanumerics (Python sense) and '-' and '_', replace
every other character with '_'. -/
def _sanitize_tool_call_id (tool_call_id : Str) : Str :=
  tool_call_id.map (fun c => if pyIsAlnum c || c = '-' || c = '_' then c else '_')

/-- Python str.splitlines restricted to the line separators '\n', '\r'
and "\r\n" (the source's previews are built from ordinary text; the
rarer separators \v, \f, \x1c-\x1e, \x85, U+2028, U+2029 that Python
also recognises do not occur in these developments).  A terminal line
break produces no trailing empty line, matching Python. -/
def pySplitlinesGo : Str → Str → List Str
  | [], acc => if acc.isEmpty then [] else [acc.reverse]
  | '\n' :: rest, acc => acc.reverse :: pySplitlinesGo rest []
  | '\r' :: '\n' :: rest, acc => acc.reverse :: pySplitlinesGo rest []
  | '\r' :: rest, acc => acc.reverse :: pySplitlinesGo rest []
  | c :: rest, acc => pySplitlinesGo rest (c :: acc)

/-- Python str.splitlines (see pySplitlinesGo); "".splitlines() = []. -/
def pySplitlines (s : Str) : List Str := pySplitlinesGo s []

/-- The f-string field {i + 1:5}: the decimal digits right-aligned in a
field of width five, padded with spaces. -/
def padWidth5 (n : Nat) : Str :=
  let digits := (toString n).data
  List.replicate (5 - digits.length) ' ' ++ digits

/-- ContextOffloadingStrategy._create_preview (offloading.py lines
129-133): first preview_lines lines, each cut to 1000 characters,
numbered from 1 with the number right-aligned in width five and a tab
before the line. -/
def _create_preview (cfg : OffloadingConfig) (content : Str) : Str :=
  let lines := (pySplitlines content).take cfg.preview_lines
  let truncated_lines := lines.map (fun line => line.take 1000)
  List.intercalate "\n".data
    ((List.range truncated_lines.length).zip truncated_lines |>.map
      (fun p => padWidth5 (p.1 + 1) ++ "\t".data ++ p.2))

/-- ContextOffloadingStrategy._create_offload_message (offloading.py
lines 135-148).  The tool_call_id parameter is accepted but unused,
exactly as in the source. -/
def _create_offload_message (cfg : OffloadingConfig)
    (tool_call_id file_path preview : Str) : Str :=
  "도구 결과가 너무 커서 파일시스템에 저장되었습니다.\n\n경로: ".data
    ++ file_path
    ++ "\n\nread_file 도구로 결과를 읽을 수 있습니다.\n대용량 결과의 경우 offset과 limit 파라미터로 부분 읽기를 권장합니다.\n\n처음 ".data
    ++ (toString cfg.preview_lines).data
    ++ "줄 미리보기:\n".data
    ++ preview
    ++ "\n".data

/-- The file path built at offloading.py line 184:
eviction_path_prefix + "/" + sanitized tool-call id. -/
def offloadFilePath (cfg : OffloadingConfig) (tool_result : OToolMessage) : Str :=
  cfg.eviction_path_base ++ "/".data ++ _sanitize_tool_call_id tool_result.tool_call_id

/-- The OffloadingResult of a pass-through (offloading.py lines
170-173): was_offloaded False, original_size len(content), other fields
at their None defaults. -/
def passThroughResult (tool_result : OToolMessage) : OffloadingResult :=
  ⟨false, tool_result.content.length, none, none⟩

/-- The replacement ToolMessage built at offloading.py lines 190-215:
the offload notice as content, the original (raw) tool_call_id. -/
def offloadReplacement (cfg : OffloadingConfig) (tool_result : OToolMessage) : OToolMessage :=
  ⟨_create_offload_message cfg tool_result.tool_call_id (offloadFilePath cfg tool_result)
      (_create_preview cfg tool_result.content),
   tool_result.tool_call_id⟩

/-- The OffloadingResult after a successful write (offloading.py lines
195-197). -/
def offloadedResult (cfg : OffloadingConfig) (tool_result : OToolMessage) : OffloadingResult :=
  ⟨true, tool_result.content.length, some (offloadFilePath cfg tool_result),
   some (_create_preview cfg tool_result.content)⟩

/-- ContextOffloadingStrategy.process_tool_result (offloading.py lines
150-215), with the bound backend factory modelled as an optional
backend (the runtime argument is only passed to the factory).  Total:
the source raises no exception on any branch. -/
def process_tool_result (cfg : OffloadingConfig) (backend_factory : Option WBackend)
    (tool_result : OToolMessage) : Processed × OffloadingResult :=
  if ! _should_offload cfg tool_result.content then
    (.msg tool_result, passThroughResult tool_result)
  else
    match backend_factory with
    | none => (.msg tool_result, passThroughResult tool_result)
    | some backend =>
      let write_result := backend.write (offloadFilePath cfg tool_result) tool_result.content
      if pyTruthyOptStr write_result.error then
        (.msg tool_result, passThroughResult tool_result)
      else
        match write_result.files_update with
        | some fu => (.command fu (offloadReplacement cfg tool_result),
                      offloadedResult cfg tool_result)
        | none => (.msg (offloadReplacement cfg tool_result),
                   offloadedResult cfg tool_result)

/- ------------------------------------------------------------------
   context_strategies/reduction.py
   ------------------------------------------------------------------ -/

/-- A pending tool-call descriptor on an AIMessage (id, name; the args
mapping is irrelevant to the strategies, which never read it). -/
structure RToolCall where
  id : Str
  name : Str
deriving DecidableEq

/-- A langchain message as the reduction strategy consumes it: System,
Human, AI (with its pending tool calls) or Tool result.  Contents are
the string case the strategy's str(msg.content) reduces to. -/
inductive RMessage
  | system (content : Str)
  | human (content : Str)
  | ai (content : Str) (tool_calls : List RToolCall)
  | tool (content : Str) (tool_call_id : Str)
deriving DecidableEq

/-- str(msg.content) for an RMessage. -/
def RMessage.contentStr : RMessage → Str
  | .system c => c
  | .human c => c
  | .ai c _ => c
  | .tool c _ => c

/-- ReductionConfig (reduction.py lines 56-73).  The source's
context_threshold is a Python float (default 0.85); it is modelled as an
exact rational, which agrees with the float comparison at every input
used here (all comparisons are far from the representation error of
0.85).  The last function is named _get_context_usage_ratio in the
source. -/
structure ReductionConfig where
  context_threshold : ℚ
  model_context_window : Nat
  compaction_age_threshold : Nat
  min_messages_to_keep : Nat
  chars_per_token : Nat
deriving DecidableEq

/-- The source's defaults: 0.85, 200000, 10, 5, 4. -/
def ReductionConfig.default : ReductionConfig :=
  ⟨85/100, 200000, 10, 5, 4⟩

/-- ReductionResult (reduction.py lines 76-93); fields after the first
default to None / 0 in the source. -/
structure ReductionResult where
  was_reduced : Bool
  technique_used : Option Str
  original_message_count : Nat
  reduced_message_count : Nat
  estimated_tokens_saved : Int
deriving DecidableEq

/-- ReductionResult(was_reduced=False) with the dataclass defaults. -/
def ReductionResult.noOp : ReductionResult := ⟨false, none, 0, 0, 0⟩

/-- total_chars in _estimate_tokens: the sum of len(str(msg.content))
over the messages. -/
def Reduction.charSum (messages : List RMessage) : Nat :=
  (messages.map (fun m => m.contentStr.length)).sum

/-- ContextReductionStrategy._estimate_tokens (reduction.py lines
129-132): sum of the content lengths, floor-divided by chars_per_token. -/
def Reduction.estimate_tokens (cfg : ReductionConfig) (messages : List RMessage) : Nat :=
  Reduction.charSum messages / cfg.chars_per_token

/-- _get_context_usage_ratio in the source (reduction.py lines 134-137):
estimated tokens divided by the context window, as an exact fraction. -/
def Reduction.usage_fraction (cfg : ReductionConfig) (messages : List RMessage) : ℚ :=
  (Reduction.estimate_tokens cfg messages : ℚ) / (cfg.model_context_window : ℚ)

/-- ContextReductionStrategy._should_reduce (reduction.py lines
139-142). -/
def _should_reduce (cfg : ReductionConfig) (messages : List RMessage) : Bool :=
  Reduction.usage_fraction cfg messages > cfg.context_threshold

/-- Python str.strip(): drop leading and trailing whitespace. -/
def pyStrip (s : Str) : Str :=
  ((s.dropWhile Char.isWhitespace).reverse.dropWhile Char.isWhitespace).reverse

/-- The body of apply_compaction's loop (reduction.py lines 155-172) for
the message at index i of a list of length total: messages with age
total - i at most the threshold are kept; older AI messages with tool
calls keep only their text when it strips non-empty and are dropped
otherwise; older Human and System messages are kept; older Tool
messages are dropped.  msg.text on an AIMessage with string content is
that string. -/
def compactKeep (cfg : ReductionConfig) (total i : Nat) : RMessage → Option RMessage
  | msg =>
    if total - i ≤ cfg.compaction_age_threshold then some msg
    else
      match msg with
      | .ai content tool_calls =>
          if tool_calls ≠ [] then
            if pyStrip content ≠ [] then some (.ai content []) else none
          else some (.ai content tool_calls)
      | .human c => some (.human c)
      | .system c => some (.system c)
      | .tool _ _ => none

/-- apply_compaction's loop over (index, message) pairs. -/
def compactGo (cfg : ReductionConfig) (total : Nat) : Nat → List RMessage → List RMessage
  | _, [] => []
  | i, m :: rest =>
    match compactKeep cfg total i m with
    | some m2 => m2 :: compactGo cfg total (i + 1) rest
    | none => compactGo cfg total (i + 1) rest

/-- ContextReductionStrategy.apply_compaction (reduction.py lines
144-184). -/
def apply_compaction (cfg : ReductionConfig) (messages : List RMessage) :
    List RMessage × ReductionResult :=
  let original_count := messages.length
  let compacted := compactGo cfg messages.length 0 messages
  (compacted,
   ⟨decide (compacted.length < original_count),
    some "compaction".data,
    original_count,
    compacted.length,
    (Reduction.estimate_tokens cfg messages : Int)
      - (Reduction.estimate_tokens cfg compacted : Int)⟩)

/-- The summarization model bound to the strategy: invoked on a list of
messages, it returns the response's textual content.  Quantifying over
this function quantifies over every possible summary text. -/
def SummarizationModel := List RMessage → Str

/-- ContextReductionStrategy._create_summary_prompt (reduction.py lines
239-252): role tag (class name minus "Message") plus the first 500
characters of each message, joined by newlines inside the fixed Korean
instruction template. -/
def _create_summary_prompt (messages : List RMessage) : Str :=
  let roleName : RMessage → Str := fun m =>
    match m with
    | .system _ => "System".data
    | .human _ => "Human".data
    | .ai _ _ => "AI".data
    | .tool _ _ => "Tool".data
  let conversation_text := messages.map
    (fun m => "[".data ++ roleName m ++ "]: ".data ++ m.contentStr.take 500)
  "다음 대화를 요약해주세요. 핵심 정보, 결정사항, 중요한 컨텍스트만 포함하세요.\n\n대화 내용:\n".data
    ++ List.intercalate "\n".data conversation_text
    ++ "\n\n요약 (한국어로, 500자 이내):".data

/-- messages_to_summarize (reduction.py lines 200-202): Python's
messages[:-keep] when len(messages) > keep, else [].  The keep = 0
corner, where Python's s[:-0] is empty, is rendered exactly. -/
def summHead (cfg : ReductionConfig) (messages : List RMessage) : List RMessage :=
  if messages.length > cfg.min_messages_to_keep then
    if cfg.min_messages_to_keep = 0 then []
    else messages.take (messages.length - cfg.min_messages_to_keep)
  else []

/-- recent_messages (reduction.py lines 203-205): Python's
messages[-keep:] when len(messages) > keep, else the whole list.  The
keep = 0 corner, where Python's s[-0:] is the whole list, is rendered
exactly. -/
def summRecent (cfg : ReductionConfig) (messages : List RMessage) : List RMessage :=
  if messages.length > cfg.min_messages_to_keep then
    if cfg.min_messages_to_keep = 0 then messages
    else messages.drop (messages.length - cfg.min_messages_to_keep)
  else messages

/-- The summary System message (reduction.py lines 210-223): the model
is invoked on the fixed Korean system instruction plus the rendered
prompt, and its response content is prefixed by the fixed marker. -/
def summMessage (m : SummarizationModel) (head : List RMessage) : RMessage :=
  .system ("[이전 대화 요약]\n".data
    ++ m [.system "당신은 대화 요약 전문가입니다. 핵심 정보만 간결하게 요약하세요.".data,
          .human (_create_summary_prompt head)])

/-- ContextReductionStrategy.apply_summarization (reduction.py lines
186-237): no-op without a model or when nothing is old enough to
summarize; otherwise the summary message replaces the head and the
recent tail is kept. -/
def apply_summarization (cfg : ReductionConfig) (model : Option SummarizationModel)
    (messages : List RMessage) : List RMessage × ReductionResult :=
  match model with
  | none => (messages, ReductionResult.noOp)
  | some m =>
    if summHead cfg messages = [] then (messages, ReductionResult.noOp)
    else
      (summMessage m (summHead cfg messages) :: summRecent cfg messages,
       ⟨true,
        some "summarization".data,
        messages.length,
        (summMessage m (summHead cfg messages) :: summRecent cfg messages).length,
        (Reduction.estimate_tokens cfg messages : Int)
          - (Reduction.estimate_tokens cfg
              (summMessage m (summHead cfg messages) :: summRecent cfg messages) : Int)⟩)

/-- ContextReductionStrategy.reduce_context (reduction.py lines
254-273): no-op under the threshold, else compaction, then
summarization only when still over the threshold. -/
def reduce_context (cfg : ReductionConfig) (model : Option SummarizationModel)
    (messages : List RMessage) : List RMessage × ReductionResult :=
  if ¬ _should_reduce cfg messages then (messages, ReductionResult.noOp)
  else if ¬ _should_reduce cfg (apply_compaction cfg messages).1 then
    apply_compaction cfg messages
  else apply_summarization cfg model (apply_compaction cfg messages).1

/- ------------------------------------------------------------------
   context_strategies/caching.py
   ------------------------------------------------------------------ -/

/-- ProviderType (caching.py lines 38-49). -/
inductive ProviderType
  | anthropic | openai | gemini | gemini_3 | openrouter
  | deepseek | groq | grok | unknown
deriving DecidableEq

/-- ProviderType.value, the enum's string payload. -/
def ProviderType.value : ProviderType → Str
  | .anthropic => "anthropic".data
  | .openai => "openai".data
  | .gemini => "gemini".data
  | .gemini_3 => "gemini_3".data
  | .openrouter => "openrouter".data
  | .deepseek => "deepseek".data
  | .groq => "groq".data
  | .grok => "grok".data
  | .unknown => "unknown".data

/-- OpenRouterSubProvider (caching.py lines 52-63). -/
inductive OpenRouterSubProvider
  | anthropic | openai | gemini | deepseek | groq | grok
  | meta_llama | mistral | unknown
deriving DecidableEq

/-- OpenRouterSubProvider.value, the enum's string payload. -/
def OpenRouterSubProvider.value : OpenRouterSubProvider → Str
  | .anthropic => "anthropic".data
  | .openai => "openai".data
  | .gemini => "gemini".data
  | .deepseek => "deepseek".data
  | .groq => "groq".data
  | .grok => "grok".data
  | .meta_llama => "meta-llama".data
  | .mistral => "mistral".data
  | .unknown => "unknown".data

/-- Python's `sub in s` substring test and str.lower, over code points
(str.lower is applied to ASCII model names here, where Char.toLower
agrees with Python): sub occurs in s iff it is a prefix of some
suffix. -/
def pyContains (s sub : Str) : Bool :=
  (List.range (s.length + 1)).any (fun i => sub.isPrefixOf (s.drop i))

/-- detect_openrouter_sub_provider (caching.py lines 135-159): classify
an OpenRouter model name by substring tests on its lowercase form. -/
def detect_openrouter_sub_provider (model_name : Str) : OpenRouterSubProvider :=
  let name_lower := model_name.map Char.toLower
  if pyContains name_lower "anthropic".data || pyContains name_lower "claude".data then
    .anthropic
  else if pyContains name_lower "openai".data || pyContains name_lower "gpt".data
      || "o1".data.isPrefixOf name_lower then
    .openai
  else if pyContains name_lower "google".data || pyContains name_lower "gemini".data then
    .gemini
  else if pyContains name_lower "deepseek".data then .deepseek
  else if pyContains name_lower "groq".data || pyContains name_lower "kimi".data then
    .groq
  else if pyContains name_lower "grok".data || pyContains name_lower "xai".data then
    .grok
  else if pyContains name_lower "meta".data || pyContains name_lower "llama".data then
    .meta_llama
  else if pyContains name_lower "mistral".data then .mistral
  else .unknown

/-- requires_cache_control_marker (caching.py lines 162-177): true only
for Anthropic directly or OpenRouter with the Anthropic sub-provider. -/
def requires_cache_control_marker (provider : ProviderType)
    (sub_provider : Option OpenRouterSubProvider) : Bool :=
  if provider = .anthropic then true
  else if provider = .openrouter ∧ sub_provider = some .anthropic then true
  else false

/-- CachingConfig (caching.py lines 180-194). -/
structure CachingConfig where
  min_cacheable_tokens : Nat
  cache_control_type : Str
  enable_for_system_prompt : Bool
  enable_for_tools : Bool
deriving DecidableEq

/-- The source's defaults: 1024, "ephemeral", True, True. -/
def CachingConfig.default : CachingConfig :=
  ⟨1024, "ephemeral".data, true, true⟩

/-- CachingResult (caching.py lines 197-209). -/
structure CachingResult where
  was_cached : Bool
  cached_content_type : Option Str
  estimated_tokens_cached : Nat
deriving DecidableEq

/-- A dict content block as the caching strategy reads and writes it:
the "type" and "text" entries (absent = not in the dict) and the
"cache_control" entry, holding the cache-control type string when
present.  Other keys are never read or written by the strategy. -/
structure DictBlock where
  type_ : Option Str
  text : Option Str
  cache_control : Option Str
deriving DecidableEq

/-- A message content payload: a string, a dict block, or a list of
such payloads. -/
inductive PyContent
  | str (s : Str)
  | dict (d : DictBlock)
  | list (l : List PyContent)

mutual
/-- ContextCachingStrategy._estimate_tokens (caching.py lines 298-305):
strings estimate as len // 4, lists as the sum over their items, dicts
as the estimate of their "text" entry (missing entry = ""). -/
def Caching.estimate_tokens : PyContent → Nat
  | .str s => s.length / 4
  | .dict d => (d.text.getD []).length / 4
  | .list l => Caching.estimate_tokens_list l

/-- Sum of Caching.estimate_tokens over a list of payloads. -/
def Caching.estimate_tokens_list : List PyContent → Nat
  | [] => 0
  | c :: rest => Caching.estimate_tokens c + Caching.estimate_tokens_list rest
end

/-- ContextCachingStrategy._should_cache (caching.py lines 307-309):
estimated tokens at least the minimum cacheable threshold. -/
def _should_cache (cfg : CachingConfig) (content : PyContent) : Bool :=
  Caching.estimate_tokens content ≥ cfg.min_cacheable_tokens

/-- ContextCachingStrategy._add_cache_control (caching.py lines
263-286): a string becomes a text block carrying the marker; a dict
with type "text" gains the marker; a non-empty list gains the marker on
its last item when that item is a dict; everything else is returned
unchanged. -/
def _add_cache_control (cfg : CachingConfig) : PyContent → PyContent
  | .str s => .dict ⟨some "text".data, some s, some cfg.cache_control_type⟩
  | .dict d =>
      if d.type_ = some "text".data then
        .dict ⟨d.type_, d.text, some cfg.cache_control_type⟩
      else .dict d
  | .list [] => .list []
  | .list l =>
      match l.getLast? with
      | some (.dict d) =>
          .list (l.dropLast ++ [.dict ⟨d.type_, d.text, some cfg.cache_control_type⟩])
      | _ => .list l

/-- ContextCachingStrategy._process_system_message (caching.py lines
288-296): run _add_cache_control, then normalise a scalar result into a
one-element list of blocks (a bare string into a text block without a
marker, a dict into a singleton list). -/
def _process_system_content (cfg : CachingConfig) (content : PyContent) : PyContent :=
  match _add_cache_control cfg content with
  | .str s => .list [.dict ⟨some "text".data, some s, none⟩]
  | .dict d => .list [.dict d]
  | .list l => .list l

/-- A langchain message as the caching strategy consumes it; only the
System variant is ever inspected or rewritten. -/
inductive CMessage
  | system (content : PyContent)
  | human (content : PyContent)
  | ai (content : PyContent)
  | tool (content : PyContent)

/-- apply_caching's annotation loop (caching.py lines 345-359): scan for
the first System message that passes enable_for_system_prompt and
_should_cache, replace it in place, record the result fields, and stop;
every other message is returned as it came. -/
def annotateLoop (cfg : CachingConfig) : List CMessage → List CMessage × CachingResult
  | [] => ([], ⟨false, none, 0⟩)
  | .system c :: rest =>
      if cfg.enable_for_system_prompt ∧ _should_cache cfg c then
        (.system (_process_system_content cfg c) :: rest,
         ⟨true, some "system_prompt".data, Caching.estimate_tokens c⟩)
      else
        (.system c :: (annotateLoop cfg rest).1, (annotateLoop cfg rest).2)
  | m :: rest => (m :: (annotateLoop cfg rest).1, (annotateLoop cfg rest).2)

/-- The sub_provider property (caching.py lines 249-257): None unless
the provider is OpenRouter; for OpenRouter, the classification of the
configured model name when one is set. -/
def subProviderOf (provider : ProviderType) (openrouter_model_name : Option Str) :
    Option OpenRouterSubProvider :=
  if provider = .openrouter then openrouter_model_name.map detect_openrouter_sub_provider
  else none

/-- The provider_info label built at caching.py lines 337-339:
"openrouter/<sub>" for OpenRouter with a classified sub-provider, the
plain provider value otherwise. -/
def providerInfo (provider : ProviderType) (sub : Option OpenRouterSubProvider) : Str :=
  match provider, sub with
  | .openrouter, some s => "openrouter/".data ++ s.value
  | p, _ => p.value

/-- ContextCachingStrategy.apply_caching (caching.py lines 311-365),
with provider detection modelled by passing the classified provider and
the configured OpenRouter model name directly (detect_provider inspects
Python class and module name strings of the live model object).  An
empty message list short-circuits before the provider check; a provider
that needs no marker returns the messages untouched with an
auto_cached_by_... label; otherwise the first qualifying System message
is annotated. -/
def apply_caching (cfg : CachingConfig) (provider : ProviderType)
    (openrouter_model_name : Option Str) (messages : List CMessage) :
    List CMessage × CachingResult :=
  if messages.isEmpty then (messages, ⟨false, none, 0⟩)
  else if ¬ requires_cache_control_marker provider
      (subProviderOf provider openrouter_model_name) then
    (messages,
     ⟨false,
      some ("auto_cached_by_".data
        ++ providerInfo provider (subProviderOf provider openrouter_model_name)),
      0⟩)
  else
    annotateLoop cfg messages

/- ------------------------------------------------------------------
   Claims about the sandbox backend
   ------------------------------------------------------------------ -/

/-- C1: for every command whose runtime call captures an output, the
ExecuteResult returned by DockerSandboxBackend.execute has
truncated = true iff the captured output exceeded 100000 characters; in
the truncated case the output is the first 100000 characters followed by
the fixed sentinel, hence of length at most 100000 plus the sentinel's
length, and outputs of at most 100000 characters pass through unchanged
with truncated = false. -/
theorem C1_execute_truncation_invariant (raw : Str) (ec : Option Int) :
    ((execute (.ok raw ec)).truncated = true ↔ 100000 < raw.length)
    ∧ ((execute (.ok raw ec)).truncated = true →
        (execute (.ok raw ec)).output = raw.take 100000 ++ truncationSentinel
          ∧ (execute (.ok raw ec)).output.length ≤ 100000 + truncationSentinel.length)
    ∧ (raw.length ≤ 100000 →
        (execute (.ok raw ec)).output = raw ∧ (execute (.ok raw ec)).truncated = false) := by
  have key : execute (.ok raw ec)
      = if raw.length ≤ 100000 then ⟨raw, ec, false⟩
        else ⟨raw.take 100000 ++ truncationSentinel, ec, true⟩ := by
    unfold execute _truncate_output
    by_cases h : raw.length ≤ 100000 <;> simp [h]
  by_cases h : raw.length ≤ 100000
  · rw [key, if_pos h]
    refine ⟨⟨fun hh => absurd hh (by simp), fun hh => absurd hh (by omega)⟩,
            fun hh => absurd hh (by simp), fun _ => ⟨rfl, rfl⟩⟩
  · rw [key, if_neg h]
    refine ⟨⟨fun _ => by omega, fun _ => rfl⟩, fun _ => ⟨rfl, ?_⟩, fun hh => absurd hh h⟩
    simp only [List.length_append, List.length_take]
    omega

/-- Witness for C1 at a concrete short output. -/
theorem C1_execute_truncation_invariant_witness :
    ("hi".data.length ≤ 100000)
    ∧ (execute (.ok "hi".data none)).output = "hi".data
    ∧ (execute (.ok "hi".data none)).truncated = false := by
  refine ⟨by decide, ?_⟩
  exact (C1_execute_truncation_invariant "hi".data none).2.2 (by decide)

/-- C8: every runtime exception inside DockerSandboxBackend.execute is
caught and returned as an ExecuteResult with exit_code = 1 whose output
contains the error text; the embedding of execute is a total function,
so no runtime exception propagates. -/
theorem C8_execute_runtime_errors_as_data (e : Str) :
    execute (.err e) = ⟨"Docker 실행 오류: ".data ++ e, some 1, false⟩
    ∧ e <:+ (execute (.err e)).output
    ∧ (execute (.err e)).exit_code = some 1 :=
  ⟨rfl, ⟨"Docker 실행 오류: ".data, rfl⟩, rfl⟩

/- ------------------------------------------------------------------
   Claims about the offloading strategy
   ------------------------------------------------------------------ -/

/-- The configuration of the boundary claim: token_limit_before_evict =
100 and chars_per_token = 4, other fields at their defaults. -/
def offloadBoundaryConfig : OffloadingConfig :=
  ⟨100, "/large_tool_results".data, 10, 4⟩

/-- C2: with token_limit_before_evict = 100 and chars_per_token = 4, a
400-character string content is returned unchanged with
was_offloaded = false under any backend binding, a 404-character string
content is offloaded when a backend is bound and its write succeeds,
and in general offloading is attempted exactly when
len(content) // chars_per_token exceeds the limit. -/
theorem C2_offload_threshold_boundary :
    (∀ (bf : Option WBackend) (msg : OToolMessage), msg.content.length = 400 →
        process_tool_result offloadBoundaryConfig bf msg
          = (.msg msg, ⟨false, 400, none, none⟩))
    ∧ (∀ (b : WBackend) (msg : OToolMessage), msg.content.length = 404 →
        (∀ p c, (b.write p c).error = none) →
        (process_tool_result offloadBoundaryConfig (some b) msg).2.was_offloaded = true)
    ∧ (∀ (cfg : OffloadingConfig) (content : Str),
        _should_offload cfg content
          = decide (content.length / cfg.chars_per_token > cfg.token_limit_before_evict)) := by
  refine ⟨?_, ?_, fun cfg content => rfl⟩
  · intro bf msg h
    have hso : _should_offload offloadBoundaryConfig msg.content = false := by
      simp [_should_offload, Offloading.estimate_tokens, offloadBoundaryConfig, h]
    unfold process_tool_result
    simp [hso, passThroughResult, h]
  · intro b msg h herr
    have hso : _should_offload offloadBoundaryConfig msg.content = true := by
      simp [_should_offload, Offloading.estimate_tokens, offloadBoundaryConfig, h]
    unfold process_tool_result
    simp only [hso, Bool.not_true, Bool.false_eq_true, if_false,
      herr, pyTruthyOptStr]
    cases hfu : (b.write (offloadFilePath offloadBoundaryConfig msg) msg.content).files_update
      <;> simp [hfu, offloadedResult]

/-- Witness for C2: the boundary evaluated at concrete 400- and
404-character contents. -/
theorem C2_offload_threshold_boundary_witness :
    ((List.replicate 400 'a' : Str).length = 400
      ∧ process_tool_result offloadBoundaryConfig none ⟨List.replicate 400 'a', "t".data⟩
          = (.msg ⟨List.replicate 400 'a', "t".data⟩, ⟨false, 400, none, none⟩))
    ∧ ((List.replicate 404 'a' : Str).length = 404
      ∧ (process_tool_result offloadBoundaryConfig
            (some ⟨fun _ _ => ⟨none, none⟩⟩)
            ⟨List.replicate 404 'a', "t".data⟩).2.was_offloaded = true) := by
  constructor
  · exact ⟨by simp, C2_offload_threshold_boundary.1 none
      ⟨List.replicate 400 'a', "t".data⟩ (by simp)⟩
  · exact ⟨by simp, C2_offload_threshold_boundary.2.1 ⟨fun _ _ => ⟨none, none⟩⟩
      ⟨List.replicate 404 'a', "t".data⟩ (by simp) (fun _ _ => rfl)⟩

/-- C5: when a tool result is over the offload limit but no backend
factory is bound, or the backend write reports a (truthy) error,
process_tool_result returns the original ToolMessage with
OffloadingResult(was_offloaded=False, original_size=len(content),
file_path=None, preview=None); the embedding is a total function, so no
exception is raised. -/
theorem C5_offload_never_fatal (cfg : OffloadingConfig) (msg : OToolMessage)
    (hso : _should_offload cfg msg.content = true) :
    process_tool_result cfg none msg
      = (.msg msg, ⟨false, msg.content.length, none, none⟩)
    ∧ (∀ b : WBackend,
        pyTruthyOptStr (b.write (offloadFilePath cfg msg) msg.content).error = true →
        process_tool_result cfg (some b) msg
          = (.msg msg, ⟨false, msg.content.length, none, none⟩)) := by
  constructor
  · unfold process_tool_result
    simp [hso, passThroughResult]
  · intro b herr
    unfold process_tool_result
    simp [hso, herr, passThroughResult]

/-- Witness for C5 at a concrete 404-character content, for both the
missing-backend case and a backend whose write reports "disk full". -/
theorem C5_offload_never_fatal_witness :
    _should_offload offloadBoundaryConfig (List.replicate 404 'a') = true
    ∧ process_tool_result offloadBoundaryConfig none ⟨List.replicate 404 'a', "t".data⟩
        = (.msg ⟨List.replicate 404 'a', "t".data⟩,
           ⟨false, (List.replicate 404 'a' : Str).length, none, none⟩)
    ∧ process_tool_result offloadBoundaryConfig
        (some ⟨fun _ _ => ⟨some "disk full".data, none⟩⟩)
        ⟨List.replicate 404 'a', "t".data⟩
        = (.msg ⟨List.replicate 404 'a', "t".data⟩,
           ⟨false, (List.replicate 404 'a' : Str).length, none, none⟩) := by
  have h := C5_offload_never_fatal offloadBoundaryConfig
    ⟨List.replicate 404 'a', "t".data⟩ (by decide)
  exact ⟨by decide, h.1, h.2 ⟨fun _ _ => ⟨some "disk full".data, none⟩⟩ (by decide)⟩

/-- C9: whenever process_tool_result reports was_offloaded, the
replacement ToolMessage it returns (directly or inside a Command)
carries exactly the original, unsanitized tool_call_id, while the
recorded file path is built from the sanitized id. -/
theorem C9_offload_preserves_tool_call_id (cfg : OffloadingConfig)
    (bf : Option WBackend) (msg : OToolMessage)
    (hoff : (process_tool_result cfg bf msg).2.was_offloaded = true) :
    ((process_tool_result cfg bf msg).1.message).tool_call_id = msg.tool_call_id
    ∧ (process_tool_result cfg bf msg).2.file_path
        = some (cfg.eviction_path_base ++ "/".data
            ++ _sanitize_tool_call_id msg.tool_call_id) := by
  unfold process_tool_result at *
  by_cases hso : _should_offload cfg msg.content = true
  · cases bf with
    | none => simp [hso, passThroughResult] at hoff
    | some b =>
      simp only [hso, Bool.not_true, Bool.false_eq_true, if_false] at *
      by_cases herr : pyTruthyOptStr (b.write (offloadFilePath cfg msg) msg.content).error = true
      · simp [herr, passThroughResult] at hoff
      · simp only [Bool.not_eq_true] at herr
        simp only [herr, Bool.false_eq_true, if_false] at *
        cases hfu : (b.write (offloadFilePath cfg msg) msg.content).files_update
          <;> simp [hfu, offloadReplacement, offloadedResult, offloadFilePath,
                Processed.message]
  · simp only [Bool.not_eq_true] at hso
    simp [hso, passThroughResult] at hoff

/-- Witness for C9: a concrete offload with a slash in the tool-call
id. -/
theorem C9_offload_preserves_tool_call_id_witness :
    (process_tool_result offloadBoundaryConfig (some ⟨fun _ _ => ⟨none, none⟩⟩)
        ⟨List.replicate 404 'a', "call/1".data⟩).2.was_offloaded = true
    ∧ ((process_tool_result offloadBoundaryConfig (some ⟨fun _ _ => ⟨none, none⟩⟩)
        ⟨List.replicate 404 'a', "call/1".data⟩).1.message).tool_call_id = "call/1".data
    ∧ (process_tool_result offloadBoundaryConfig (some ⟨fun _ _ => ⟨none, none⟩⟩)
        ⟨List.replicate 404 'a', "call/1".data⟩).2.file_path
        = some (offloadBoundaryConfig.eviction_path_base ++ "/".data
            ++ _sanitize_tool_call_id "call/1".data) := by
  have h := C9_offload_preserves_tool_call_id offloadBoundaryConfig
    (some ⟨fun _ _ => ⟨none, none⟩⟩) ⟨List.replicate 404 'a', "call/1".data⟩ (by decide)
  exact ⟨by decide, h.1, h.2⟩

/-- C7 counterexample: Python's str.isalnum is Unicode-aware, so the
sanitizer keeps the non-ASCII letter 'é' (Python's "é".isalnum() is
True), yet 'é' is not in [A-Za-z0-9_-] (Char.isAlphanum decides exactly
that ASCII class, and 'é' is neither '-' nor '_'). -/
theorem C7_sanitize_counterexample :
    _sanitize_tool_call_id ['é'] = ['é']
    ∧ ('é'.isAlphanum || 'é' = '-' || 'é' = '_') = false := by decide

/-- C7 as amended: every character of the sanitized id is a Python
alphanumeric or '-' or '_'; when the input id is pure ASCII the output
characters all lie in [A-Za-z0-9_-]; and the concrete id
"call/with:special@chars!" sanitizes into that class. -/
theorem C7_sanitize_charset (id : Str) :
    (∀ c ∈ _sanitize_tool_call_id id, pyIsAlnum c = true ∨ c = '-' ∨ c = '_')
    ∧ ((∀ c ∈ id, c.toNat < 128) →
        ∀ c ∈ _sanitize_tool_call_id id, (c.isAlphanum || c = '-' || c = '_') = true)
    ∧ (∀ c ∈ _sanitize_tool_call_id "call/with:special@chars!".data,
        (c.isAlphanum || c = '-' || c = '_') = true) := by
  refine ⟨?_, ?_, by decide⟩
  · intro c hc
    simp only [_sanitize_tool_call_id, List.mem_map] at hc
    obtain ⟨x, hx, rfl⟩ := hc
    split
    · rename_i hcond
      simp only [Bool.or_eq_true, decide_eq_true_eq] at hcond
      rcases hcond with (h1 | h2) | h3
      · exact Or.inl h1
      · exact Or.inr (Or.inl h2)
      · exact Or.inr (Or.inr h3)
    · exact Or.inr (Or.inr rfl)
  · intro hascii c hc
    simp only [_sanitize_tool_call_id, List.mem_map] at hc
    obtain ⟨x, hx, rfl⟩ := hc
    split
    · rename_i hcond
      simp only [Bool.or_eq_true, decide_eq_true_eq, pyIsAlnum] at hcond
      rcases hcond with ((h1 | h1e) | h2) | h3
      · simp [h1]
      · exact absurd (h1e ▸ hascii x hx) (by decide)
      · simp [h2]
      · simp [h3]
    · decide

/-- Witness for C7's ASCII hypothesis at a concrete ASCII id. -/
theorem C7_sanitize_charset_witness :
    (∀ c ∈ ("a/b".data : Str), c.toNat < 128)
    ∧ ∀ c ∈ _sanitize_tool_call_id "a/b".data,
        (c.isAlphanum || c = '-' || c = '_') = true :=
  ⟨by decide, (C7_sanitize_charset "a/b".data).2.1 (by decide)⟩

/- ------------------------------------------------------------------
   Claims about the reduction strategy
   ------------------------------------------------------------------ -/

/-- A message kept by the compaction loop keeps its content string:
verbatim keeps are identities and the tool-call-stripping rewrite of an
AI message reuses its text, which for string content is the content
itself. -/
theorem compactKeep_contentStr (cfg : ReductionConfig) (total i : Nat)
    (m m2 : RMessage) (h : compactKeep cfg total i m = some m2) :
    m2.contentStr = m.contentStr := by
  unfold compactKeep at h
  split at h
  · cases Option.some.inj h
    rfl
  · cases m with
    | ai c tcs =>
        simp only at h
        split at h
        · split at h
          · cases Option.some.inj h
            rfl
          · exact absurd h (by simp)
        · cases Option.some.inj h
          rfl
    | human c =>
        cases Option.some.inj h
        rfl
    | system c =>
        cases Option.some.inj h
        rfl
    | tool c tid => exact absurd h (by simp)

/-- The compaction loop never increases the total character count. -/
theorem compactGo_charSum_le (cfg : ReductionConfig) (total : Nat) :
    ∀ (msgs : List RMessage) (i : Nat),
      Reduction.charSum (compactGo cfg total i msgs) ≤ Reduction.charSum msgs := by
  intro msgs
  induction msgs with
  | nil => intro i; simp [compactGo]
  | cons m rest ih =>
    intro i
    unfold compactGo
    cases hk : compactKeep cfg total i m with
    | none =>
        have h1 := ih (i + 1)
        simp only [Reduction.charSum, List.map_cons, List.sum_cons] at h1 ⊢
        omega
    | some m2 =>
        have h1 := ih (i + 1)
        have h2 := compactKeep_contentStr cfg total i m m2 hk
        simp only [Reduction.charSum, List.map_cons, List.sum_cons, h2] at h1 ⊢
        omega

/-- The compaction loop never increases the number of messages. -/
theorem compactGo_length_le (cfg : ReductionConfig) (total : Nat) :
    ∀ (msgs : List RMessage) (i : Nat),
      (compactGo cfg total i msgs).length ≤ msgs.length := by
  intro msgs
  induction msgs with
  | nil => intro i; simp [compactGo]
  | cons m rest ih =>
    intro i
    unfold compactGo
    cases hk : compactKeep cfg total i m with
    | none =>
        have h1 := ih (i + 1)
        simp only [List.length_cons]
        omega
    | some m2 =>
        have h1 := ih (i + 1)
        simp only [List.length_cons]
        omega

/-- apply_compaction shrinks: its recorded reduced count is at most the
original count and its recorded token saving is non-negative. -/
theorem apply_compaction_monotonic (cfg : ReductionConfig) (msgs : List RMessage) :
    (apply_compaction cfg msgs).2.reduced_message_count
      ≤ (apply_compaction cfg msgs).2.original_message_count
    ∧ 0 ≤ (apply_compaction cfg msgs).2.estimated_tokens_saved
    ∧ (apply_compaction cfg msgs).2.technique_used = some "compaction".data := by
  refine ⟨?_, ?_, rfl⟩
  · simpa [apply_compaction] using compactGo_length_le cfg msgs.length msgs 0
  · have h := compactGo_charSum_le cfg msgs.length msgs 0
    have h2 := Nat.div_le_div_right (c := cfg.chars_per_token) h
    simp only [apply_compaction, Reduction.estimate_tokens]
    omega

/-- A non-empty messages_to_summarize forces min_messages_to_keep to be
non-zero and strictly below the message count. -/
theorem summHead_ne_nil (cfg : ReductionConfig) (msgs : List RMessage)
    (h : summHead cfg msgs ≠ []) :
    cfg.min_messages_to_keep < msgs.length ∧ cfg.min_messages_to_keep ≠ 0 := by
  unfold summHead at h
  by_cases hgt : msgs.length > cfg.min_messages_to_keep
  · by_cases hk0 : cfg.min_messages_to_keep = 0
    · rw [if_pos hgt, if_pos hk0] at h
      exact absurd rfl h
    · exact ⟨hgt, hk0⟩
  · rw [if_neg hgt] at h
    exact absurd rfl h

/-- In the summarizing case the recent tail has exactly
min_messages_to_keep messages. -/
theorem summRecent_length (cfg : ReductionConfig) (msgs : List RMessage)
    (hgt : cfg.min_messages_to_keep < msgs.length)
    (hk0 : cfg.min_messages_to_keep ≠ 0) :
    (summRecent cfg msgs).length = cfg.min_messages_to_keep := by
  unfold summRecent
  rw [if_pos hgt, if_neg hk0]
  simp only [List.length_drop]
  omega

/-- When apply_summarization reports a reduction, its recorded reduced
count is at most the original count and it names the summarization
technique. -/
theorem apply_summarization_count (cfg : ReductionConfig)
    (model : Option SummarizationModel) (msgs : List RMessage)
    (h : (apply_summarization cfg model msgs).2.was_reduced = true) :
    (apply_summarization cfg model msgs).2.reduced_message_count
      ≤ (apply_summarization cfg model msgs).2.original_message_count
    ∧ (apply_summarization cfg model msgs).2.technique_used
        = some "summarization".data := by
  cases model with
  | none => exact absurd h (by simp [apply_summarization, ReductionResult.noOp])
  | some m =>
    unfold apply_summarization at h ⊢
    dsimp only at h ⊢
    by_cases hne : summHead cfg msgs = []
    · rw [if_pos hne] at h
      exact absurd h (by simp [ReductionResult.noOp])
    · rw [if_neg hne] at h ⊢
      obtain ⟨hgt, hk0⟩ := summHead_ne_nil cfg msgs hne
      refine ⟨?_, rfl⟩
      simp only [List.length_cons, summRecent_length cfg msgs hgt hk0]
      omega

/-- _should_reduce is true exactly when the exact usage fraction
exceeds the threshold: the strictly-above direction. -/
theorem should_reduce_true_of (cfg : ReductionConfig) (msgs : List RMessage)
    (hq : cfg.context_threshold
        < (Reduction.estimate_tokens cfg msgs : ℚ) / (cfg.model_context_window : ℚ)) :
    _should_reduce cfg msgs = true := by
  simp only [_should_reduce, Reduction.usage_fraction, gt_iff_lt, decide_eq_true_eq]
  exact hq

/-- _should_reduce is false exactly when the exact usage fraction is at
most the threshold. -/
theorem should_reduce_false_of (cfg : ReductionConfig) (msgs : List RMessage)
    (hq : (Reduction.estimate_tokens cfg msgs : ℚ) / (cfg.model_context_window : ℚ)
        ≤ cfg.context_threshold) :
    _should_reduce cfg msgs = false := by
  simp only [_should_reduce, Reduction.usage_fraction, gt_iff_lt,
    decide_eq_false_iff_not]
  exact not_lt.mpr hq

/-- C3 as amended: whenever reduce_context reports was_reduced, the
reduced message count is at most the original count, and the estimated
token saving is non-negative whenever the technique is compaction (the
summarization saving is estimate(input) minus estimate(output) and can
be negative when the model's summary is longer than the summarized
head). -/
theorem C3_reduce_monotonic (cfg : ReductionConfig) (model : Option SummarizationModel)
    (messages : List RMessage)
    (hred : (reduce_context cfg model messages).2.was_reduced = true) :
    (reduce_context cfg model messages).2.reduced_message_count
      ≤ (reduce_context cfg model messages).2.original_message_count
    ∧ ((reduce_context cfg model messages).2.technique_used = some "compaction".data →
        0 ≤ (reduce_context cfg model messages).2.estimated_tokens_saved) := by
  unfold reduce_context at hred ⊢
  by_cases h1 : _should_reduce cfg messages = true
  · rw [if_neg (fun hc => hc h1)] at hred ⊢
    by_cases h2 : _should_reduce cfg (apply_compaction cfg messages).1 = true
    · rw [if_neg (fun hc => hc h2)] at hred ⊢
      have hc := apply_summarization_count cfg model (apply_compaction cfg messages).1 hred
      refine ⟨hc.1, fun ht => ?_⟩
      rw [hc.2] at ht
      exact absurd (Option.some.inj ht) (by decide)
    · rw [if_pos h2] at hred ⊢
      have hm := apply_compaction_monotonic cfg messages
      exact ⟨hm.1, fun _ => hm.2.1⟩
  · rw [if_pos h1] at hred
    exact absurd hred (by simp [ReductionResult.noOp])

/-- The configuration of the C3 counterexample: threshold 0.85, context
window 10 tokens, age threshold 10, keep 5, 4 chars per token. -/
def c3Config : ReductionConfig := ⟨85/100, 10, 10, 5, 4⟩

/-- Six 6-character Human messages: 36 chars = 9 estimated tokens, a
0.9 usage fraction. -/
def c3Messages : List RMessage :=
  List.replicate 6 (.human (List.replicate 6 'h'))

/-- A bound summarization model that answers with a 100-character
summary, longer than everything it was asked to summarize. -/
def c3Model : SummarizationModel := fun _ => List.replicate 100 'x'

/-- C3 counterexample: reduce_context reports was_reduced = true via
summarization, yet estimated_tokens_saved is negative (-26), because
the model's 100-character summary plus the retained tail outweigh the
36 characters of input.  This refutes the claim that tokens_saved ≥ 0
holds for every possible summary text. -/
theorem C3_reduce_monotonic_counterexample :
    (reduce_context c3Config (some c3Model) c3Messages).2.was_reduced = true
    ∧ (reduce_context c3Config (some c3Model) c3Messages).2.estimated_tokens_saved < 0 := by
  have hest : Reduction.estimate_tokens c3Config c3Messages = 9 := by decide
  have hs : _should_reduce c3Config c3Messages = true := by
    apply should_reduce_true_of
    rw [hest]
    norm_num [c3Config]
  have hfst : (apply_compaction c3Config c3Messages).1 = c3Messages := by decide
  have hred : reduce_context c3Config (some c3Model) c3Messages
      = apply_summarization c3Config (some c3Model) c3Messages := by
    unfold reduce_context
    rw [hfst, if_neg (fun hc => hc hs), if_neg (fun hc => hc hs)]
  rw [hred]
  exact ⟨by decide, by decide⟩

/-- The configuration of the C3 witness: same as the counterexample but
with compaction age threshold 2, so compaction alone gets under the
threshold. -/
def c3wConfig : ReductionConfig := ⟨85/100, 10, 2, 5, 4⟩

/-- One old 6-character ToolResult followed by five 6-character Human
messages. -/
def c3wMessages : List RMessage :=
  .tool (List.replicate 6 't') "id".data
    :: List.replicate 5 (.human (List.replicate 6 'h'))

/-- Witness for C3 at a concrete compaction-only reduction: the old
tool result is dropped, the count shrinks from 6 to 5 and two tokens
are saved. -/
theorem C3_reduce_monotonic_witness :
    (reduce_context c3wConfig none c3wMessages).2.was_reduced = true
    ∧ (reduce_context c3wConfig none c3wMessages).2.reduced_message_count
        ≤ (reduce_context c3wConfig none c3wMessages).2.original_message_count
    ∧ ((reduce_context c3wConfig none c3wMessages).2.technique_used
          = some "compaction".data →
        0 ≤ (reduce_context c3wConfig none c3wMessages).2.estimated_tokens_saved) := by
  have hest : Reduction.estimate_tokens c3wConfig c3wMessages = 9 := by decide
  have h1 : _should_reduce c3wConfig c3wMessages = true := by
    apply should_reduce_true_of
    rw [hest]
    norm_num [c3wConfig]
  have hfst : (apply_compaction c3wConfig c3wMessages).1
      = List.replicate 5 (.human (List.replicate 6 'h')) := by decide
  have hest2 : Reduction.estimate_tokens c3wConfig
      (List.replicate 5 (RMessage.human (List.replicate 6 'h'))) = 7 := by decide
  have h2 : _should_reduce c3wConfig (apply_compaction c3wConfig c3wMessages).1 = false := by
    rw [hfst]
    apply should_reduce_false_of
    rw [hest2]
    norm_num [c3wConfig]
  have hr : reduce_context c3wConfig none c3wMessages
      = apply_compaction c3wConfig c3wMessages := by
    unfold reduce_context
    rw [if_neg (fun hc => hc h1), if_pos (by simp [h2])]
  have hred : (reduce_context c3wConfig none c3wMessages).2.was_reduced = true := by
    rw [hr]
    decide
  have main := C3_reduce_monotonic c3wConfig none c3wMessages hred
  exact ⟨hred, main.1, main.2⟩

/-- One Human / AI-with-tool-call / ToolResult triple of the C4
scenario; every content is non-empty so the AI text survives
stripping. -/
def c4Triple : List RMessage :=
  [.human "h".data, .ai "a".data [⟨"c".data, "f".data⟩], .tool "r".data "c".data]

/-- The C4 scenario: 20 alternating triples, 60 messages. -/
def c4Scenario : List RMessage := (List.replicate 20 c4Triple).flatten

/-- What compaction with age threshold 10 actually returns on the
scenario: the first 17 Human/AI pairs lose their ToolResults and
tool-call directives (the 17th triple's ToolResult, at index 50, has
age exactly 10 and survives), and only the last 10 messages — the 17th
triple's ToolResult plus the last three triples — are kept verbatim. -/
def c4Expected : List RMessage :=
  (List.replicate 17 [RMessage.human "h".data, RMessage.ai "a".data []]).flatten
    ++ RMessage.tool "r".data "c".data :: (List.replicate 3 c4Triple).flatten

/-- C4 counterexample: the input's last 30 messages (its 10 most recent
triples) are NOT a suffix of the compacted output — the ToolResult
messages of triples 11 through 16 have ages between 11 and 28 and are
dropped — refuting the conjunct that the 10 most recent triples are
returned byte-identical. -/
theorem C4_compaction_scenario_counterexample :
    (c4Scenario.drop 30).isSuffixOf
        (apply_compaction ReductionConfig.default c4Scenario).1 = false := by decide

/-- C4 as amended: on the 20-triple scenario with age threshold 10,
compaction drops every ToolResult older than age 10, keeps of every
older AI message only its text, keeps the 10 most recent messages (not
triples) byte-identical, and records 60 messages in, 44 out, 4 tokens
saved. -/
theorem C4_compaction_scenario :
    apply_compaction ReductionConfig.default c4Scenario
      = (c4Expected, ⟨true, some "compaction".data, 60, 44, 4⟩) := by decide

/- ------------------------------------------------------------------
   Claims about the caching strategy
   ------------------------------------------------------------------ -/

/-- Whether the annotation loop would stop at this message: a System
message passing enable_for_system_prompt and the minimum-token check. -/
def qualifiesForCache (cfg : CachingConfig) : CMessage → Bool
  | .system c => cfg.enable_for_system_prompt && _should_cache cfg c
  | _ => false

/-- The annotation loop passes over any prefix with no qualifying
message, leaving it untouched. -/
theorem annotateLoop_append_skip (cfg : CachingConfig) (pre rest : List CMessage)
    (hpre : ∀ m ∈ pre, qualifiesForCache cfg m = false) :
    annotateLoop cfg (pre ++ rest)
      = (pre ++ (annotateLoop cfg rest).1, (annotateLoop cfg rest).2) := by
  induction pre with
  | nil => simp
  | cons m pre ih =>
    have hm := hpre m (by simp)
    have hrest : ∀ x ∈ pre, qualifiesForCache cfg x = false :=
      fun x hx => hpre x (by simp [hx])
    have htail := ih hrest
    cases m with
    | system c =>
        have hcond : ¬ (cfg.enable_for_system_prompt = true
            ∧ _should_cache cfg c = true) := by
          intro hc
          simp [qualifiesForCache, hc.1, hc.2] at hm
        simp only [List.cons_append, annotateLoop, if_neg hcond, List.append_eq, htail]
    | human c => simp only [List.cons_append, annotateLoop, List.append_eq, htail]
    | ai c => simp only [List.cons_append, annotateLoop, List.append_eq, htail]
    | tool c => simp only [List.cons_append, annotateLoop, List.append_eq, htail]

/-- The annotation loop stops at a qualifying System message and
rewrites exactly it. -/
theorem annotateLoop_cons_system_pos (cfg : CachingConfig) (c : PyContent)
    (rest : List CMessage)
    (h : cfg.enable_for_system_prompt = true ∧ _should_cache cfg c = true) :
    annotateLoop cfg (.system c :: rest)
      = (.system (_process_system_content cfg c) :: rest,
         ⟨true, some "system_prompt".data, Caching.estimate_tokens c⟩) := by
  simp only [annotateLoop, if_pos h]

/-- C6: when the classified provider requires cache-control markers
(Anthropic directly, or OpenRouter with an Anthropic-classified model
name), apply_caching under the default configuration rewrites exactly
the first System message with at least 1024 estimated tokens — for
string content it becomes a single text block carrying the "ephemeral"
cache-control marker — and leaves every other message unchanged; when
the classified provider is OpenAI, every (non-empty) message list is
returned unmodified and the result records the auto_cached_by_openai
classification with was_cached = false. -/
theorem C6_cache_marker_gating :
    (∀ (provider : ProviderType) (name : Option Str) (pre suf : List CMessage) (s : Str),
        requires_cache_control_marker provider (subProviderOf provider name) = true →
        (∀ m ∈ pre, qualifiesForCache CachingConfig.default m = false) →
        1024 ≤ s.length / 4 →
        apply_caching CachingConfig.default provider name
            (pre ++ .system (.str s) :: suf)
          = (pre ++ .system (.list [.dict ⟨some "text".data, some s,
                some "ephemeral".data⟩]) :: suf,
             ⟨true, some "system_prompt".data, s.length / 4⟩))
    ∧ (∀ (name : Option Str) (messages : List CMessage), messages ≠ [] →
        apply_caching CachingConfig.default .openai name messages
          = (messages, ⟨false, some "auto_cached_by_openai".data, 0⟩)) := by
  constructor
  · intro provider name pre suf s hreq hpre hlen
    have hsc : CachingConfig.default.enable_for_system_prompt = true
        ∧ _should_cache CachingConfig.default (.str s) = true := by
      refine ⟨rfl, ?_⟩
      simp only [_should_cache, Caching.estimate_tokens, decide_eq_true_eq,
        CachingConfig.default]
      exact hlen
    unfold apply_caching
    rw [if_neg (by simp), if_neg (fun hc => hc hreq),
      annotateLoop_append_skip CachingConfig.default pre _ hpre,
      annotateLoop_cons_system_pos CachingConfig.default _ suf hsc]
    rfl
  · intro name messages hne
    have hreq : requires_cache_control_marker .openai
        (subProviderOf .openai name) = false := rfl
    unfold apply_caching
    rw [if_neg (by simpa using hne), if_pos (by simp [hreq])]
    rfl

/-- Witness for C6: a 4096-character system prompt under a direct
Anthropic classification gains the marker; a one-message OpenAI list is
returned untouched with the auto-cached label. -/
theorem C6_cache_marker_gating_witness :
    (requires_cache_control_marker .anthropic (subProviderOf .anthropic none) = true
      ∧ 1024 ≤ (List.replicate 4096 's' : Str).length / 4
      ∧ apply_caching CachingConfig.default .anthropic none
          [.system (.str (List.replicate 4096 's'))]
          = ([.system (.list [.dict ⟨some "text".data, some (List.replicate 4096 's'),
                some "ephemeral".data⟩])],
             ⟨true, some "system_prompt".data, (List.replicate 4096 's' : Str).length / 4⟩))
    ∧ ([CMessage.human (.str "x".data)] ≠ []
      ∧ apply_caching CachingConfig.default .openai none [.human (.str "x".data)]
          = ([.human (.str "x".data)],
             ⟨false, some "auto_cached_by_openai".data, 0⟩)) := by
  refine ⟨⟨rfl, by rw [List.length_replicate], ?_⟩, by simp,
    C6_cache_marker_gating.2 none [.human (.str "x".data)] (by simp)⟩
  exact C6_cache_marker_gating.1 .anthropic none [] []
    (List.replicate 4096 's') rfl (by simp) (by rw [List.length_replicate])

/-- C10: apply_caching on an empty message list returns the empty list
with CachingResult(was_cached=False, cached_content_type=None,
estimated_tokens_cached=0) for every provider classification — the
empty check fires before any auto-cached label is built. -/
theorem C10_apply_caching_empty (cfg : CachingConfig) (provider : ProviderType)
    (name : Option Str) :
    apply_caching cfg provider name [] = ([], ⟨false, none, 0⟩) := rfl
